import Mathlib

/-
  Shallow embedding of src/bot.py (a Flask webhook relaying Google Chat
  events to an OpenWebUI backend).  JSON values produced by json parsing
  are modelled by an inductive type; Python dict/attribute semantics
  (`.get`, `in`, truthiness, `or`, `==` on dict keys, f-strings) are
  modelled by explicit total functions; exceptions are modelled with
  `Except String` carrying the Python exception name.  The two network
  calls made by the handler are modelled by an environment (oracle)
  describing what the backend does, and the handler records a trace of
  the calls it issues.
-/

namespace Bot

/-- JSON values as produced by parsing a request or response body.
Numbers are modelled as integers (no claim involves non-integral
numbers).  An `obj` models a Python dict with distinct keys. -/
inductive Json where
  | null
  | bool (b : Bool)
  | num (n : Int)
  | str (s : String)
  | arr (elems : List Json)
  | obj (fields : List (String × Json))

/-- Python truthiness of a parsed-JSON value: `None`, `False`, `0`,
`""`, `[]` and `{}` are falsy, everything else truthy. -/
def truthy : Json → Bool
  | .null => false
  | .bool b => b
  | .num n => n != 0
  | .str s => s != ""
  | .arr xs => !xs.isEmpty
  | .obj kvs => !kvs.isEmpty

/-- Python `a or b` on parsed-JSON values: `a` if truthy, else `b`. -/
def pyOr (a b : Json) : Json := if truthy a then a else b

/-- Python `j == "s"` where the right-hand side is a string literal:
true exactly for an equal `str` value. -/
def Json.isStrEq : Json → String → Bool
  | .str s, t => s == t
  | _, _ => false

/-- Lookup in the field list of a dict (keys are distinct, so first
match suffices); `none` means the key is absent. -/
def dictGet : List (String × Json) → String → Option Json
  | [], _ => none
  | (k, v) :: rest, key => if k = key then some v else dictGet rest key

/-- Python `j.get(k, d)`: on a dict returns the stored value (which may
be `None`) or the default `d` when the key is absent; on any non-dict
value raises `AttributeError`. -/
def pyGetD (j : Json) (k : String) (d : Json) : Except String Json :=
  match j with
  | .obj kvs => .ok ((dictGet kvs k).getD d)
  | _ => .error "AttributeError"

/-- Python `j.get(k)` (default `None`). -/
def pyGet (j : Json) (k : String) : Except String Json :=
  pyGetD j k Json.null

/-- Python `j[k]` with a string key: dict lookup raising `KeyError` when
absent, `TypeError` on non-dicts. -/
def pyIndex (j : Json) (k : String) : Except String Json :=
  match j with
  | .obj kvs =>
    match dictGet kvs k with
    | some v => .ok v
    | none => .error "KeyError"
  | _ => .error "TypeError"

/-- Does the character list start with the given pattern? -/
def charsStartWith : List Char → List Char → Bool
  | _, [] => true
  | [], _ :: _ => false
  | c :: cs, d :: ds => c == d && charsStartWith cs ds

/-- Does the character list contain the pattern as a contiguous run? -/
def charsContain : List Char → List Char → Bool
  | [], pat => pat.isEmpty
  | c :: cs, pat => charsStartWith (c :: cs) pat || charsContain cs pat

/-- Python `"k" in j`: key membership for dicts, element equality for
lists, substring for strings, `TypeError` otherwise. -/
def pyContains (j : Json) (k : String) : Except String Bool :=
  match j with
  | .obj kvs => .ok (dictGet kvs k).isSome
  | .arr xs => .ok (xs.any (fun x => x.isStrEq k))
  | .str s => .ok (charsContain s.toList k.toList)
  | _ => .error "TypeError"

/-- Python dict-key equality (`hash`-compatible `==`): `True == 1` and
`False == 0`; strings compare by value; `None` only to itself.  Only
hashable values ever reach the store (see `hashable`). -/
def pyKeyEq : Json → Json → Bool
  | .null, .null => true
  | .bool a, .bool b => a == b
  | .num a, .num b => a == b
  | .bool a, .num b => (if a then (1 : Int) else 0) == b
  | .num a, .bool b => a == (if b then (1 : Int) else 0)
  | .str a, .str b => a == b
  | _, _ => false

/-- Parsed-JSON values usable as dict keys: lists and dicts are
unhashable (using one as a key raises `TypeError`). -/
def hashable : Json → Bool
  | .arr _ => false
  | .obj _ => false
  | _ => true

/-- The in-memory `chat_sessions` dict (bot.py line 36): conversation
key (the value at `space.name`, possibly `None`) to stored chat id. -/
abbrev Store := List (Json × Json)

/-- Dict lookup in the session store. -/
def storeGet : Store → Json → Option Json
  | [], _ => none
  | (k, v) :: rest, key => if pyKeyEq k key then some v else storeGet rest key

/-- Dict assignment `chat_sessions[key] = v` (insert or overwrite). -/
def storePut : Store → Json → Json → Store
  | [], key, v => [(key, v)]
  | (k, w) :: rest, key, v =>
    if pyKeyEq k key then (k, v) :: rest else (k, w) :: storePut rest key v

/-- Dict removal `chat_sessions.pop(key, None)` (idempotent). -/
def storeRemove : Store → Json → Store
  | [], _ => []
  | (k, w) :: rest, key => if pyKeyEq k key then rest else (k, w) :: storeRemove rest key

mutual

/-- Python `repr` of a parsed-JSON value (string escaping inside
reprs of nested strings is not modelled; no claim depends on it). -/
def pyRepr : Json → String
  | .null => "None"
  | .bool b => if b then "True" else "False"
  | .num n => toString n
  | .str s => "\x27" ++ s ++ "\x27"
  | .arr xs => "[" ++ pyReprList xs ++ "]"
  | .obj kvs => "\x7b" ++ pyReprKVs kvs ++ "\x7d"

/-- Comma-joined reprs of list elements. -/
def pyReprList : List Json → String
  | [] => ""
  | [x] => pyRepr x
  | x :: y :: rest => pyRepr x ++ ", " ++ pyReprList (y :: rest)

/-- Comma-joined reprs of dict entries. -/
def pyReprKVs : List (String × Json) → String
  | [] => ""
  | [(k, v)] => "\x27" ++ k ++ "\x27: " ++ pyRepr v
  | (k, v) :: p :: rest => "\x27" ++ k ++ "\x27: " ++ pyRepr v ++ ", " ++ pyReprKVs (p :: rest)

end

/-- Python `str()` as used by f-strings: the string itself for strings,
`repr` otherwise (`None`, `True`, numbers, containers). -/
def pyStr (j : Json) : String :=
  match j with
  | .str s => s
  | _ => pyRepr j

/-- Suffix of the list after the first occurrence of the (non-empty)
pattern `sc :: srest`, or `none` if the pattern does not occur. -/
def afterFirst (sc : Char) (srest : List Char) : List Char → Option (List Char)
  | [] => none
  | c :: cs =>
    if charsStartWith (c :: cs) (sc :: srest) then some (cs.drop srest.length)
    else afterFirst sc srest cs

/-- Suffix of `s` after the last occurrence of the pattern, or `s`
itself when the pattern does not occur: the last element of Python's
`s.split(sep)` for a non-empty separator.  Each `afterFirst` step
strictly shortens the list, so `s.length` steps of fuel always
suffice. -/
def lastSegment (sc : Char) (srest : List Char) : Nat → List Char → List Char
  | 0, s => s
  | fuel + 1, s =>
    match afterFirst sc srest s with
    | none => s
    | some rest => lastSegment sc srest fuel rest

/-- Python `auth_header.split('Bearer ')[-1]` (bot.py line 42). -/
def splitBearerLast (s : String) : String :=
  String.mk (lastSegment 'B' "earer ".toList s.toList.length s.toList)

/-- Token extraction from the Authorization header (bot.py line 42):
`auth_header.split('Bearer ')[-1] if auth_header.startswith('Bearer ')
else None`. -/
def extractToken (ah : String) : Option String :=
  if charsStartWith ah.toList "Bearer ".toList then some (splitBearerLast ah) else none

/-- Outcome of one `requests.post` to the backend: either the call
itself raises (connection error or timeout), or an HTTP response
arrives with a status code and a body that may or may not parse as
JSON (`none` models a body on which `resp.json()` raises). -/
inductive CallResult where
  | netError
  | status (code : Nat) (body : Option Json)

/-- Oracle for the externals of one request: whether JWT verification
of a given token succeeds (bot.py lines 47-49), what the backend does
on the session-create POST (lines 82-86) and on the message-send POST
(lines 99-103, keyed by the chat id placed in the URL). -/
structure Env where
  verify : String → Bool
  createCall : CallResult
  sendCall : Json → CallResult

/-- Observable record of one backend request issued by the handler:
which endpoint, with which timeout argument (in seconds; `none` means
`requests.post` was called without a `timeout`), and for the send
endpoint which session id and message content were used. -/
inductive Call where
  | create (t : Option Nat)
  | send (sessionId : Json) (content : Json) (t : Option Nat)

/-- URL path of a recorded call, relative to the configured base URL:
`/chats/new` for session creation, `/chats/{chat_id}` (f-string
rendering of the id) for message sending. -/
def Call.path : Call → String
  | .create _ => "/chats/new"
  | .send sessionId _ _ => "/chats/" ++ pyStr sessionId

/-- Timeout argument of a recorded call. -/
def Call.timeoutArg : Call → Option Nat
  | .create t => t
  | .send _ _ t => t

/-- Is the recorded call a session-create? -/
def Call.isCreate : Call → Bool
  | .create _ => true
  | .send _ _ _ => false

/-- Number of `createSession` calls in a trace. -/
def countCreate (tr : List Call) : Nat :=
  (tr.filter Call.isCreate).length

/-- What the handler produces for one request: an HTTP reply with a
status and a JSON body, or an exception escaping the handler (an
unhandled fault, surfaced by the framework as a 4xx/5xx error page,
carrying the Python exception name). -/
inductive Outcome where
  | reply (stat : Nat) (body : Json)
  | fault (e : String)

/-- Body `{"error": "Unauthorized"}` (bot.py lines 45 and 53). -/
def unauthorizedBody : Json := .obj [("error", .str "Unauthorized")]

/-- Fixed apology reply on session-creation failure (line 89). -/
def apologyBody : Json := .obj [("text", .str "Sorry, I couldn\x27t start a session with the AI.")]

/-- Fixed degraded reply on message-send failure (line 106). -/
def unavailableBody : Json := .obj [("text", .str "⚠️ Error: The AI service is unavailable at the moment.")]

/-- Empty body `{}` (lines 70 and 75). -/
def emptyBody : Json := .obj []

/-- Sentinel reply when no content is extractable (line 123). -/
def sentinelReply : Json := .str "*(No response from AI)*"

/-- `event.get("message", {}).get("text", "")` (bot.py line 73). -/
def eventText (event : Json) : Except String Json := do
  let m ← pyGetD event "message" (Json.obj [])
  pyGetD m "text" (Json.str "")

/-- `event.get("space", {}).get("name")` (bot.py lines 67 and 78). -/
def eventSpace (event : Json) : Except String Json := do
  let sp ← pyGetD event "space" (Json.obj [])
  pyGet sp "name"

/-- `event.get("user", {}).get("displayName", "there")` (line 62). -/
def eventUserName (event : Json) : Except String Json := do
  let u ← pyGetD event "user" (Json.obj [])
  pyGetD u "displayName" (Json.str "there")

/-- `resp.json().get("id") or resp.json().get("chat_id")` (line 90). -/
def createExtract (bodyJson : Json) : Except String Json := do
  let a ← pyGet bodyJson "id"
  let b ← pyGet bodyJson "chat_id"
  pure (pyOr a b)

/-- The value line 90 extracts from a dict-shaped create response. -/
def extractedId (kvs : List (String × Json)) : Json :=
  pyOr ((dictGet kvs "id").getD Json.null) ((dictGet kvs "chat_id").getD Json.null)

/-- Lines 111-118 of bot.py: the `chat`-wrapper probe producing the
initial `assistant_reply` value — the wrapped content when the `chat`
member's role marker is `assistant` and the content is truthy, the
empty string otherwise. -/
def extractReplyChat (owui_data : Json) : Except String Json :=
  match pyContains owui_data "chat" with
  | .error e => Except.error e
  | .ok true => do
    let chatv ← pyIndex owui_data "chat"
    let content ← pyGet chatv "content"
    let role ← pyGet chatv "role"
    if role.isStrEq "assistant" && truthy content then pure content else pure (Json.str "")
  | .ok false => pure (Json.str "")

/-- Lines 119-123 of bot.py: the fallback chain applied to the line
111-118 result — `assistant.content or content` (Python `or`,
short-circuit) when the first probe was falsy, then the sentinel when
still falsy. -/
def extractReplyTail (owui_data fromChat : Json) : Except String Json := do
  let r2 : Json ←
    if truthy fromChat then pure fromChat
    else do
      let a ← pyGetD owui_data "assistant" (Json.obj [])
      let ac ← pyGet a "content"
      if truthy ac then pure ac
      else pyGetD owui_data "content" (Json.str "")
  if truthy r2 then pure r2 else pure sentinelReply

/-- Reply extraction from a message-send response body (bot.py lines
109-123): first the `chat` wrapper when its role is `assistant` and
its content truthy, then `assistant.content` or top-level `content`,
finally the sentinel. -/
def extractReply (owui_data : Json) : Except String Json := do
  let fromChat ← extractReplyChat owui_data
  extractReplyTail owui_data fromChat

/-- The message-send leg (bot.py lines 97-126): POST to
`/chats/{chat_id}` with `timeout=15`; on a raised error or a 4xx/5xx
status (`raise_for_status` raises only for those; both caught at lines
104-106) reply with the fixed unavailable text; any other final
status, 3xx included, proceeds to `resp.json()` (line 109, outside any
`try`) and reply extraction.  The store is never touched here. -/
def sendFlow (env : Env) (store : Store) (chat_id user_message : Json) (tr : List Call) :
    Outcome × Store × List Call :=
  let tr := tr ++ [Call.send chat_id user_message (some 15)]
  match env.sendCall chat_id with
  | .netError => (.reply 200 unavailableBody, store, tr)
  | .status code rawBody =>
    if 400 ≤ code then (.reply 200 unavailableBody, store, tr)
    else
      match rawBody with
      | none => (.fault "JSONDecodeError", store, tr)
      | some owui_data =>
        match extractReply owui_data with
        | .error e => (.fault e, store, tr)
        | .ok r => (.reply 200 (Json.obj [("text", r)]), store, tr)

/-- The message flow (bot.py lines 79-126): membership test on the
session dict (unhashable keys raise `TypeError`); on a miss, POST to
`/chats/new` (no timeout argument), apology reply if the call raises
or the status is 4xx/5xx (all that `raise_for_status` raises for);
any other final status, 3xx included, proceeds to `resp.json()` (line
90, outside the `try`), extraction of `id` or `chat_id`, unconditional
store of the extracted value, then the send leg. -/
def messageFlow (env : Env) (store : Store) (space_id user_message : Json) :
    Outcome × Store × List Call :=
  if hashable space_id then
    match storeGet store space_id with
    | none =>
      match env.createCall with
      | .netError => (.reply 200 apologyBody, store, [Call.create none])
      | .status code rawBody =>
        if 400 ≤ code then (.reply 200 apologyBody, store, [Call.create none])
        else
          match rawBody with
          | none => (.fault "JSONDecodeError", store, [Call.create none])
          | some bodyJson =>
            match createExtract bodyJson with
            | .error e => (.fault e, store, [Call.create none])
            | .ok chat_id =>
              sendFlow env (storePut store space_id chat_id) chat_id user_message [Call.create none]
    | some chat_id => sendFlow env store chat_id user_message []
  else (.fault "TypeError", store, [])

/-- Event dispatch (bot.py lines 59-126): `ADDED_TO_SPACE` greets,
`REMOVED_FROM_SPACE` drops the session record, everything else is
treated as the message case — empty or absent `message.text` yields an
empty reply, otherwise the message flow runs keyed by `space.name`
(`None` when absent). -/
def handleEvent (env : Env) (store : Store) (event : Json) : Outcome × Store × List Call :=
  match pyGet event "type" with
  | .error e => (.fault e, store, [])
  | .ok etype =>
    if etype.isStrEq "ADDED_TO_SPACE" then
      match eventUserName event with
      | .error e => (.fault e, store, [])
      | .ok uname =>
        (.reply 200 (Json.obj [("text",
          Json.str ("Hello " ++ pyStr uname ++ ", I\x27m your OpenWebUI bot! Ask me anything."))]),
         store, [])
    else if etype.isStrEq "REMOVED_FROM_SPACE" then
      match eventSpace event with
      | .error e => (.fault e, store, [])
      | .ok space =>
        if hashable space then (.reply 200 emptyBody, storeRemove store space, [])
        else (.fault "TypeError", store, [])
    else
      match eventText event with
      | .error e => (.fault e, store, [])
      | .ok user_message =>
        if truthy user_message then
          match eventSpace event with
          | .error e => (.fault e, store, [])
          | .ok space_id => messageFlow env store space_id user_message
        else (.reply 200 emptyBody, store, [])

/-- One inbound request: the Authorization header (`none` when absent;
`headers.get` defaults it to the empty string) and the parsed JSON
body (`none` when the body is not valid JSON, in which case
`request.get_json()` raises). -/
structure WebhookInput where
  authHeader : Option String
  body : Option Json

/-- The whole handler (bot.py lines 38-126): token extraction and the
`if not token` check, JWT verification through the oracle (any
verification failure was caught and turned into 401), then
`request.get_json()` and event dispatch. -/
def webhook (env : Env) (store : Store) (inp : WebhookInput) : Outcome × Store × List Call :=
  match extractToken (inp.authHeader.getD "") with
  | none => (.reply 401 unauthorizedBody, store, [])
  | some tok =>
    if tok = "" then (.reply 401 unauthorizedBody, store, [])
    else if env.verify tok then
      match inp.body with
      | none => (.fault "BadRequest", store, [])
      | some event => handleEvent env store event
    else (.reply 401 unauthorizedBody, store, [])

/-- A MESSAGE event for a given `space.name` value and message text. -/
def msgEvent (space : Json) (text : String) : Json :=
  .obj [("type", .str "MESSAGE"),
        ("space", .obj [("name", space)]),
        ("message", .obj [("text", .str text)])]

/-- A MESSAGE event carrying no `space` field at all. -/
def msgEventNoSpace (text : String) : Json :=
  .obj [("type", .str "MESSAGE"),
        ("message", .obj [("text", .str text)])]

/-- A REMOVED_FROM_SPACE event for a given `space.name` value. -/
def removedEvent (space : Json) : Json :=
  .obj [("type", .str "REMOVED_FROM_SPACE"),
        ("space", .obj [("name", space)])]

/-- A request carrying the fixed authorized header `Bearer tok` and the
given event body. -/
def authedInput (e : Json) : WebhookInput :=
  ⟨some "Bearer tok", some e⟩

section Helpers

theorem exceptBind_ok {α β : Type} (a : α) (f : α → Except String β) :
    (Except.ok a : Except String α) >>= f = f a := rfl

theorem exceptBind_error {α β : Type} (e : String) (f : α → Except String β) :
    (Except.error e : Except String α) >>= f = Except.error e := rfl

theorem exceptPure {α : Type} (a : α) :
    (pure a : Except String α) = Except.ok a := rfl

theorem webhook_authed (env : Env) (store : Store) (e : Json)
    (hv : env.verify "tok" = true) :
    webhook env store (authedInput e) = handleEvent env store e := by
  have hstep : webhook env store (authedInput e) =
      if env.verify "tok" then handleEvent env store e
      else (.reply 401 unauthorizedBody, store, []) := rfl
  rw [hstep, if_pos hv]

theorem handleEvent_msg (env : Env) (store : Store) (space : Json) (t : String)
    (ht : t ≠ "") :
    handleEvent env store (msgEvent space t) = messageFlow env store space (.str t) := by
  have hstep : handleEvent env store (msgEvent space t) =
      if truthy (.str t) then messageFlow env store space (.str t)
      else (.reply 200 emptyBody, store, []) := rfl
  have htr : truthy (.str t) = true := by simpa [truthy] using ht
  rw [hstep, if_pos htr]

theorem handleEvent_msgNoSpace (env : Env) (store : Store) (t : String)
    (ht : t ≠ "") :
    handleEvent env store (msgEventNoSpace t) = messageFlow env store Json.null (.str t) := by
  have hstep : handleEvent env store (msgEventNoSpace t) =
      if truthy (.str t) then messageFlow env store Json.null (.str t)
      else (.reply 200 emptyBody, store, []) := rfl
  have htr : truthy (.str t) = true := by simpa [truthy] using ht
  rw [hstep, if_pos htr]

theorem handleEvent_removed (env : Env) (store : Store) (space : Json)
    (hk : hashable space = true) :
    handleEvent env store (removedEvent space) =
      (.reply 200 emptyBody, storeRemove store space, []) := by
  have hstep : handleEvent env store (removedEvent space) =
      if hashable space then (.reply 200 emptyBody, storeRemove store space, [])
      else (.fault "TypeError", store, []) := rfl
  rw [hstep, if_pos hk]

theorem sendFlow_store (env : Env) (store : Store) (cid msg : Json) (tr : List Call) :
    (sendFlow env store cid msg tr).2.1 = store := by
  unfold sendFlow
  cases h : env.sendCall cid with
  | netError => rfl
  | status code b =>
    by_cases h4 : 400 ≤ code
    · simp [h4]
    · cases b with
      | none => simp [h4]
      | some j => cases hr : extractReply j <;> simp [h4, hr]

theorem sendFlow_trace (env : Env) (store : Store) (cid msg : Json) (tr : List Call) :
    (sendFlow env store cid msg tr).2.2 = tr ++ [Call.send cid msg (some 15)] := by
  unfold sendFlow
  cases h : env.sendCall cid with
  | netError => rfl
  | status code b =>
    by_cases h4 : 400 ≤ code
    · simp [h4]
    · cases b with
      | none => simp [h4]
      | some j => cases hr : extractReply j <;> simp [h4, hr]

theorem sendFlow_fail (env : Env) (store : Store) (cid msg : Json) (tr : List Call)
    (hf : env.sendCall cid = .netError ∨
      ∃ code b, env.sendCall cid = .status code b ∧ 400 ≤ code) :
    sendFlow env store cid msg tr =
      (.reply 200 unavailableBody, store, tr ++ [Call.send cid msg (some 15)]) := by
  unfold sendFlow
  rcases hf with h | ⟨code, b, h, h4⟩
  · rw [h]
  · rw [h]
    simp [h4]

theorem messageFlow_hit (env : Env) (store : Store) (space cid msg : Json)
    (hk : hashable space = true) (hs : storeGet store space = some cid) :
    messageFlow env store space msg = sendFlow env store cid msg [] := by
  unfold messageFlow
  rw [if_pos hk, hs]

theorem messageFlow_miss (env : Env) (store : Store) (space msg : Json)
    (kvs : List (String × Json))
    (hk : hashable space = true) (hs : storeGet store space = none)
    (hc : env.createCall = .status 200 (some (.obj kvs))) :
    messageFlow env store space msg =
      sendFlow env (storePut store space (extractedId kvs)) (extractedId kvs) msg
        [Call.create none] := by
  unfold messageFlow
  rw [if_pos hk, hs, hc]
  have hce : createExtract (.obj kvs) = .ok (extractedId kvs) := rfl
  simp [hce]

theorem messageFlow_createFail (env : Env) (store : Store) (space msg : Json)
    (hk : hashable space = true) (hs : storeGet store space = none)
    (hc : env.createCall = .netError ∨
      ∃ code b, env.createCall = .status code b ∧ 400 ≤ code) :
    messageFlow env store space msg = (.reply 200 apologyBody, store, [Call.create none]) := by
  unfold messageFlow
  rw [if_pos hk, hs]
  rcases hc with h | ⟨code, b, h, h4⟩
  · rw [h]
  · rw [h]
    simp [h4]

theorem pyKeyEq_refl (j : Json) (h : hashable j = true) : pyKeyEq j j = true := by
  cases j <;> simp_all [pyKeyEq, hashable]

theorem storeGet_put_self (st : Store) (k v : Json) (h : pyKeyEq k k = true) :
    storeGet (storePut st k v) k = some v := by
  induction st with
  | nil => simp [storePut, storeGet, h]
  | cons p rest ih =>
    obtain ⟨a, b⟩ := p
    by_cases hk : pyKeyEq a k = true
    · simp [storePut, storeGet, hk]
    · simp [storePut, storeGet, hk, ih]

theorem remove_put_of_absent (st : Store) (k v : Json) (hk : pyKeyEq k k = true)
    (h : storeGet st k = none) : storeRemove (storePut st k v) k = st := by
  induction st with
  | nil => simp [storePut, storeRemove, hk]
  | cons p rest ih =>
    obtain ⟨a, b⟩ := p
    by_cases hak : pyKeyEq a k = true
    · simp [storeGet, hak] at h
    · rw [storeGet] at h
      simp only [hak] at h
      simp [storePut, hak, storeRemove, ih h]

end Helpers

/-- C1: for every inbound request whose Authorization header is absent
or not of the form `Bearer <token>`, and for every request whose
extracted token fails verification for any reason, the handler returns
HTTP 401 with body `{"error": "Unauthorized"}`, the session store is
unchanged, and no backend call is made. -/
theorem c1_auth_failure_rejected (env : Env) (store : Store) (inp : WebhookInput)
    (h : ∀ t, extractToken (inp.authHeader.getD "") = some t → t ≠ "" →
      env.verify t = false) :
    webhook env store inp = (.reply 401 unauthorizedBody, store, []) := by
  unfold webhook
  cases hx : extractToken (inp.authHeader.getD "") with
  | none => rfl
  | some tok =>
    by_cases ht : tok = ""
    · simp [ht]
    · simp [ht, h tok hx ht]

theorem c1_auth_failure_rejected_witness :
    webhook ⟨fun _ => false, .netError, fun _ => .netError⟩ []
        ⟨some "Bearer abc", some (msgEvent (.str "spaces/A") "hi")⟩ =
      (.reply 401 unauthorizedBody, [], []) :=
  c1_auth_failure_rejected _ _ _ (fun _ _ _ => rfl)

/-- Field lookup on a JSON object, `none` on absence or non-objects. -/
def lookupJ (B : Json) (k : String) : Option Json :=
  match B with
  | .obj kvs => dictGet kvs k
  | _ => none

/-- The field `k`, when present, holds an object. -/
def memberObjOrAbsent (kvs : List (String × Json)) (k : String) : Bool :=
  match dictGet kvs k with
  | none => true
  | some (.obj _) => true
  | some _ => false

/-- Strategy (1) of the claim: the `chat` object's `content` when its
`role` equals `assistant` and the content is non-empty (falsy results
count as empty); empty string otherwise. -/
def specFromChat (B : Json) : Json :=
  match lookupJ B "chat" with
  | some chatv =>
    match lookupJ chatv "role", lookupJ chatv "content" with
    | some r, some c => if r.isStrEq "assistant" && truthy c then c else .str ""
    | _, _ => .str ""
  | none => .str ""

/-- Strategy (2) of the claim: the `assistant` object's `content`. -/
def specFromAssistant (B : Json) : Json :=
  match lookupJ B "assistant" with
  | some a => (lookupJ a "content").getD .null
  | none => .null

/-- Strategy (3) of the claim: the top-level `content` field. -/
def specFromContent (B : Json) : Json := (lookupJ B "content").getD (.str "")

/-- The ordered reply extraction exactly as the claim words it: try the
three strategies in order, the first non-empty (truthy) result wins,
sentinel when none yields non-empty text. -/
def specExtract (B : Json) : Json :=
  if truthy (specFromChat B) then specFromChat B
  else if truthy (specFromAssistant B) then specFromAssistant B
  else if truthy (specFromContent B) then specFromContent B
  else sentinelReply

theorem extractReplyChat_eq (kvs : List (String × Json))
    (hchat : memberObjOrAbsent kvs "chat" = true) :
    extractReplyChat (.obj kvs) = .ok (specFromChat (.obj kvs)) := by
  unfold memberObjOrAbsent at hchat
  unfold extractReplyChat specFromChat lookupJ
  cases h1 : dictGet kvs "chat" with
  | none => simp [pyContains, h1, exceptPure]
  | some chatv =>
    rw [h1] at hchat
    cases chatv with
    | obj ckvs =>
      simp only [pyContains, h1, Option.isSome_some, pyIndex, pyGet, pyGetD,
        exceptBind_ok, exceptPure]
      cases hr : dictGet ckvs "role" with
      | none =>
        cases hc : dictGet ckvs "content" <;>
          simp [hr, hc, Json.isStrEq, truthy]
      | some r =>
        cases hc : dictGet ckvs "content" with
        | none => simp [hr, hc, truthy]
        | some c =>
          simp only [hr, hc, Option.getD_some]
          split_ifs <;> rfl
    | null => simp [memberObjOrAbsent] at hchat
    | bool b => simp at hchat
    | num n => simp at hchat
    | str s => simp at hchat
    | arr xs => simp at hchat

theorem extractReplyTail_eq (kvs : List (String × Json)) (v : Json)
    (hassist : memberObjOrAbsent kvs "assistant" = true) :
    extractReplyTail (.obj kvs) v =
      .ok (if truthy v then v
           else if truthy (specFromAssistant (.obj kvs)) then specFromAssistant (.obj kvs)
           else if truthy (specFromContent (.obj kvs)) then specFromContent (.obj kvs)
           else sentinelReply) := by
  unfold memberObjOrAbsent at hassist
  unfold extractReplyTail specFromAssistant specFromContent lookupJ
  by_cases hv : truthy v = true
  · simp [hv, exceptBind_ok, exceptPure]
  · rw [Bool.not_eq_true] at hv
    cases h2 : dictGet kvs "assistant" with
    | none =>
      simp only [hv, h2, pyGet, pyGetD, Option.getD_none, Option.getD_some,
        exceptBind_ok, exceptPure, Bool.false_eq_true, if_false]
      simp only [dictGet, Option.getD_none, truthy]
      split_ifs <;> rfl
    | some a =>
      rw [h2] at hassist
      cases a with
      | obj akvs =>
        simp only [hv, h2, pyGet, pyGetD, Option.getD_some, exceptBind_ok, exceptPure,
          Bool.false_eq_true, if_false]
        by_cases hac : truthy ((dictGet akvs "content").getD Json.null) = true
        · simp [hac]
        · rw [Bool.not_eq_true] at hac
          simp only [hac, Bool.false_eq_true, if_false]
          split_ifs <;> rfl
      | null => simp at hassist
      | bool b => simp at hassist
      | num n => simp at hassist
      | str s => simp at hassist
      | arr xs => simp at hassist

/-- Counterexample to C3 as stated: the claim quantifies over every
successful send-response body and promises the extraction never
errors, but on the body `{"assistant": "x"}` line 121's
`.get("assistant", {}).get("content")` calls `.get` on a string and
raises `AttributeError`. -/
theorem c3_counterexample :
    extractReply (.obj [("assistant", .str "x")]) = .error "AttributeError" := rfl

/-- C3 (amended): for every send-response body that is a JSON object
whose `chat` and `assistant` members, when present, are themselves
objects, the reply is computed by the claim's ordered extraction —
`chat.content` when `chat.role` is `assistant` and the content
non-empty, then `assistant.content`, then `content`, first non-empty
wins, sentinel otherwise — and no error is raised.  (Outside that
shape the extraction can raise an uncaught exception, see the
counterexample.) -/
theorem c3_ordered_extraction (kvs : List (String × Json))
    (hchat : memberObjOrAbsent kvs "chat" = true)
    (hassist : memberObjOrAbsent kvs "assistant" = true) :
    extractReply (.obj kvs) = .ok (specExtract (.obj kvs)) := by
  unfold extractReply specExtract
  rw [extractReplyChat_eq kvs hchat, exceptBind_ok, extractReplyTail_eq kvs _ hassist]

theorem c3_ordered_extraction_witness :
    extractReply (.obj [("chat", .obj [("role", .str "assistant"), ("content", .str "hi")])]) =
        .ok (.str "hi") ∧
    extractReply (.obj [("content", .str "hello")]) = .ok (.str "hello") ∧
    extractReply (.obj []) = .ok (.str "*(No response from AI)*") :=
  ⟨(c3_ordered_extraction [("chat", .obj [("role", .str "assistant"), ("content", .str "hi")])]
      rfl rfl).trans rfl,
   (c3_ordered_extraction [("content", .str "hello")] rfl rfl).trans rfl,
   (c3_ordered_extraction [] rfl rfl).trans rfl⟩


/-- Concrete environment for the C4 failing input: verification passes,
the create call returns 2xx with JSON body `{}` (neither `id` nor
`chat_id`), the send call returns 2xx with `{}`. -/
def envC4 : Env := ⟨fun _ => true, .status 200 (some (.obj [])), fun _ => .status 200 (some (.obj []))⟩

/-- C4 (code divergence): when the createSession response body contains
neither `id` nor `chat_id`, line 90 extracts `None`, line 91 stores it
under the conversation anyway, and the flow proceeds to POST to
`/chats/None` — there is no `MalformedResponse` failure, no apology
reply, and a later message will find the stored record and not retry
creation, contradicting the claim. -/
theorem c4_code_divergence :
    webhook envC4 [] (authedInput (msgEvent (.str "spaces/A") "hi")) =
      (.reply 200 (.obj [("text", sentinelReply)]), [(.str "spaces/A", Json.null)],
       [Call.create none, Call.send Json.null (.str "hi") (some 15)]) ∧
    Call.path (Call.send Json.null (.str "hi") (some 15)) = "/chats/None" ∧
    storeGet [((Json.str "spaces/A"), Json.null)] (.str "spaces/A") = some Json.null :=
  ⟨rfl, rfl, rfl⟩

/-- Concrete environment for the C5 counterexample: verification
passes, both backend calls succeed. -/
def envC5 : Env :=
  ⟨fun _ => true, .status 200 (some (.obj [("id", .str "s1")])),
   fun _ => .status 200 (some (.obj [("content", .str "hello")]))⟩

/-- Counterexample to C5 as stated: an authenticated event whose type
is `CARD_CLICKED` (not ADDED_TO_SPACE, REMOVED_FROM_SPACE or MESSAGE)
but which carries a non-empty `message.text` is routed through the
message flow — the handler makes two backend calls, mutates the
session store, and replies with text, not with an empty body. -/
theorem c5_counterexample :
    webhook envC5 [] (authedInput (.obj [("type", .str "CARD_CLICKED"),
        ("space", .obj [("name", .str "spaces/A")]),
        ("message", .obj [("text", .str "hi")])])) =
      (.reply 200 (.obj [("text", .str "hello")]), [(.str "spaces/A", .str "s1")],
       [Call.create none, Call.send (.str "s1") (.str "hi") (some 15)]) := rfl

/-- C5 (amended): an authenticated event that is a JSON object whose
type is neither ADDED_TO_SPACE nor REMOVED_FROM_SPACE and whose
`message.text` is absent or falsy (with the `message` member, when
present, being an object) is answered with HTTP 200 and an empty JSON
body: no backend call, session store unchanged, no error.  (Events of
unknown type that do carry non-empty message text are instead routed
through the message flow, and non-object shapes raise — see the
counterexample.) -/
theorem c5_unknown_noop (env : Env) (store : Store) (kvs : List (String × Json)) (txt : Json)
    (hv : env.verify "tok" = true)
    (h1 : ((dictGet kvs "type").getD Json.null).isStrEq "ADDED_TO_SPACE" = false)
    (h2 : ((dictGet kvs "type").getD Json.null).isStrEq "REMOVED_FROM_SPACE" = false)
    (h3 : eventText (.obj kvs) = .ok txt)
    (h4 : truthy txt = false) :
    webhook env store (authedInput (.obj kvs)) = (.reply 200 emptyBody, store, []) := by
  rw [webhook_authed env store _ hv]
  unfold handleEvent
  have hty : pyGet (.obj kvs) "type" = .ok ((dictGet kvs "type").getD Json.null) := rfl
  rw [hty]
  simp only [h1, h2, h3, h4, Bool.false_eq_true, if_false]

theorem c5_unknown_noop_witness :
    webhook ⟨fun _ => true, .netError, fun _ => .netError⟩ []
        (authedInput (.obj [("type", .str "CARD_CLICKED")])) =
      (.reply 200 emptyBody, [], []) :=
  c5_unknown_noop ⟨fun _ => true, .netError, fun _ => .netError⟩ []
    [("type", .str "CARD_CLICKED")] (.str "") rfl rfl rfl rfl rfl

/-- Concrete environment for the C6 counterexample: verification
passes and the send POST comes back with a final 301 status (a
Location-less redirect; a 304 behaves the same) carrying the JSON
body `{}`. -/
def envC6x : Env := ⟨fun _ => true, .netError, fun _ => .status 301 (some (.obj []))⟩

/-- Counterexample to C6 as stated: the claim covers every non-2xx
send status, but `raise_for_status` raises only for 4xx/5xx, so a
final 3xx response (304, or a redirect without a usable Location) is
treated as success: its body is fed to reply extraction and the
handler answers with the sentinel text, not the fixed
service-unavailable reply. -/
theorem c6_counterexample :
    webhook envC6x [(.str "spaces/A", .str "s1")]
        (authedInput (msgEvent (.str "spaces/A") "hi")) =
      (.reply 200 (.obj [("text", sentinelReply)]), [(.str "spaces/A", .str "s1")],
       [Call.send (.str "s1") (.str "hi") (some 15)]) := rfl

/-- C6 (amended): for a MESSAGE event on a conversation whose session
record exists, when the send call raises (network error or timeout) or
returns a 4xx/5xx status — exactly the statuses `raise_for_status`
raises for — the handler replies HTTP 200 with the fixed service-
unavailable text and the session store is returned unchanged.  (A
final 3xx status passes `raise_for_status` and is processed as
success, see the counterexample.) -/
theorem c6_send_failure_preserved (env : Env) (store : Store) (space cid : Json) (t : String)
    (hv : env.verify "tok" = true) (ht : t ≠ "") (hk : hashable space = true)
    (hs : storeGet store space = some cid)
    (hf : env.sendCall cid = .netError ∨
      ∃ code b, env.sendCall cid = .status code b ∧ 400 ≤ code) :
    webhook env store (authedInput (msgEvent space t)) =
      (.reply 200 unavailableBody, store, [Call.send cid (.str t) (some 15)]) := by
  rw [webhook_authed env store _ hv, handleEvent_msg env store space t ht,
    messageFlow_hit env store space cid (.str t) hk hs,
    sendFlow_fail env store cid (.str t) [] hf]
  rfl

theorem c6_send_failure_preserved_witness :
    webhook ⟨fun _ => true, .netError, fun _ => .netError⟩ [(.str "spaces/A", .str "s1")]
        (authedInput (msgEvent (.str "spaces/A") "hi")) =
      (.reply 200 unavailableBody, [(.str "spaces/A", .str "s1")],
       [Call.send (.str "s1") (.str "hi") (some 15)]) :=
  c6_send_failure_preserved ⟨fun _ => true, .netError, fun _ => .netError⟩
    [(.str "spaces/A", .str "s1")] (.str "spaces/A") (.str "s1") "hi"
    rfl (by decide) rfl rfl (Or.inl rfl)

/-- Concrete environment for the C7 failing input: verification passes
and the createSession call returns HTTP 200 with a body that is not
valid JSON. -/
def envC7 : Env := ⟨fun _ => true, .status 200 none, fun _ => .netError⟩

/-- C7 (code divergence): `resp.json()` at line 90 sits outside the
`try` block, so an authenticated MESSAGE request for a new
conversation whose createSession response is 2xx with a non-JSON body
raises an uncaught `JSONDecodeError` out of the handler instead of
producing a well-formed response; likewise a request body that is not
valid JSON makes `request.get_json()` (line 55) raise out of the
handler code. -/
theorem c7_code_divergence :
    webhook envC7 [] (authedInput (msgEvent (.str "spaces/A") "hi")) =
      (.fault "JSONDecodeError", [], [Call.create none]) ∧
    webhook envC7 [] ⟨some "Bearer tok", none⟩ = (.fault "BadRequest", [], []) :=
  ⟨rfl, rfl⟩


/-- C2: session lifecycle for a conversation key.  With a backend whose
createSession call succeeds with a JSON-object body: the first
non-empty MESSAGE for an unknown conversation triggers exactly one
createSession call and stores the extracted id under the conversation
key; a subsequent non-empty MESSAGE triggers zero createSession calls,
sends on the stored id and leaves the store unchanged; after a
REMOVED_FROM_SPACE event removes the record, the next non-empty
MESSAGE behaves as first contact and triggers createSession again. -/
theorem c2_session_lifecycle (env : Env) (store : Store) (space : Json) (t1 t2 t3 : String)
    (hv : env.verify "tok" = true) (h1 : t1 ≠ "") (h2 : t2 ≠ "") (h3 : t3 ≠ "")
    (hk : hashable space = true) (habs : storeGet store space = none)
    (kvs : List (String × Json))
    (hc : env.createCall = .status 200 (some (.obj kvs))) :
    countCreate (webhook env store (authedInput (msgEvent space t1))).2.2 = 1 ∧
    storeGet (webhook env store (authedInput (msgEvent space t1))).2.1 space =
      some (extractedId kvs) ∧
    countCreate (webhook env (webhook env store (authedInput (msgEvent space t1))).2.1
      (authedInput (msgEvent space t2))).2.2 = 0 ∧
    (webhook env (webhook env store (authedInput (msgEvent space t1))).2.1
      (authedInput (msgEvent space t2))).2.2 =
      [Call.send (extractedId kvs) (.str t2) (some 15)] ∧
    (webhook env (webhook env store (authedInput (msgEvent space t1))).2.1
      (authedInput (msgEvent space t2))).2.1 =
      (webhook env store (authedInput (msgEvent space t1))).2.1 ∧
    storeGet (webhook env (webhook env store (authedInput (msgEvent space t1))).2.1
      (authedInput (removedEvent space))).2.1 space = none ∧
    countCreate (webhook env
      (webhook env (webhook env store (authedInput (msgEvent space t1))).2.1
        (authedInput (removedEvent space))).2.1
      (authedInput (msgEvent space t3))).2.2 = 1 := by
  have hkeq : pyKeyEq space space = true := pyKeyEq_refl space hk
  have hr1 : webhook env store (authedInput (msgEvent space t1)) =
      sendFlow env (storePut store space (extractedId kvs)) (extractedId kvs) (.str t1)
        [Call.create none] := by
    rw [webhook_authed env store _ hv, handleEvent_msg env store space t1 h1,
      messageFlow_miss env store space (.str t1) kvs hk habs hc]
  have hS1store : (webhook env store (authedInput (msgEvent space t1))).2.1 =
      storePut store space (extractedId kvs) := by
    rw [hr1, sendFlow_store]
  have hS1trace : (webhook env store (authedInput (msgEvent space t1))).2.2 =
      [Call.create none, Call.send (extractedId kvs) (.str t1) (some 15)] := by
    rw [hr1, sendFlow_trace]
    rfl
  have hget1 : storeGet (storePut store space (extractedId kvs)) space =
      some (extractedId kvs) := storeGet_put_self store space _ hkeq
  have hr2 : webhook env (storePut store space (extractedId kvs))
      (authedInput (msgEvent space t2)) =
      sendFlow env (storePut store space (extractedId kvs)) (extractedId kvs) (.str t2) [] := by
    rw [webhook_authed _ _ _ hv, handleEvent_msg _ _ _ _ h2,
      messageFlow_hit _ _ _ _ _ hk hget1]
  have hrem : webhook env (storePut store space (extractedId kvs))
      (authedInput (removedEvent space)) =
      (.reply 200 emptyBody, storeRemove (storePut store space (extractedId kvs)) space, []) := by
    rw [webhook_authed _ _ _ hv, handleEvent_removed _ _ _ hk]
  have hremStore : storeRemove (storePut store space (extractedId kvs)) space = store :=
    remove_put_of_absent store space _ hkeq habs
  have hr3 : webhook env store (authedInput (msgEvent space t3)) =
      sendFlow env (storePut store space (extractedId kvs)) (extractedId kvs) (.str t3)
        [Call.create none] := by
    rw [webhook_authed env store _ hv, handleEvent_msg env store space t3 h3,
      messageFlow_miss env store space (.str t3) kvs hk habs hc]
  refine ⟨?_, ?_, ?_, ?_, ?_, ?_, ?_⟩
  · rw [hS1trace]
    rfl
  · rw [hS1store, hget1]
  · rw [hS1store, hr2, sendFlow_trace]
    rfl
  · rw [hS1store, hr2, sendFlow_trace]
    rfl
  · rw [hS1store, hr2, sendFlow_store]
  · rw [hS1store, hrem]
    dsimp only
    rw [hremStore]
    exact habs
  · rw [hS1store, hrem]
    dsimp only
    rw [hremStore, hr3, sendFlow_trace]
    rfl

/-- Concrete environment for the C2 witness. -/
def envC2 : Env :=
  ⟨fun _ => true, .status 200 (some (.obj [("id", .str "s1")])), fun _ => .netError⟩

theorem c2_session_lifecycle_witness :
    countCreate (webhook envC2 [] (authedInput (msgEvent (.str "spaces/A") "a"))).2.2 = 1 ∧
    storeGet (webhook envC2 [] (authedInput (msgEvent (.str "spaces/A") "a"))).2.1
      (.str "spaces/A") = some (.str "s1") ∧
    countCreate (webhook envC2
      (webhook envC2 [] (authedInput (msgEvent (.str "spaces/A") "a"))).2.1
      (authedInput (msgEvent (.str "spaces/A") "b"))).2.2 = 0 ∧
    (webhook envC2 (webhook envC2 [] (authedInput (msgEvent (.str "spaces/A") "a"))).2.1
      (authedInput (msgEvent (.str "spaces/A") "b"))).2.2 =
      [Call.send (.str "s1") (.str "b") (some 15)] ∧
    (webhook envC2 (webhook envC2 [] (authedInput (msgEvent (.str "spaces/A") "a"))).2.1
      (authedInput (msgEvent (.str "spaces/A") "b"))).2.1 =
      (webhook envC2 [] (authedInput (msgEvent (.str "spaces/A") "a"))).2.1 ∧
    storeGet (webhook envC2
      (webhook envC2 [] (authedInput (msgEvent (.str "spaces/A") "a"))).2.1
      (authedInput (removedEvent (.str "spaces/A")))).2.1 (.str "spaces/A") = none ∧
    countCreate (webhook envC2
      (webhook envC2 (webhook envC2 [] (authedInput (msgEvent (.str "spaces/A") "a"))).2.1
        (authedInput (removedEvent (.str "spaces/A")))).2.1
      (authedInput (msgEvent (.str "spaces/A") "c"))).2.2 = 1 :=
  c2_session_lifecycle envC2 [] (.str "spaces/A") "a" "b" "c" rfl (by decide) (by decide)
    (by decide) rfl rfl [("id", .str "s1")] rfl

/-- C10: an authenticated MESSAGE event with non-empty text but no
`space` field is still processed, keyed by the null conversation key:
the first such message creates a session and stores it under `None`,
and any later space-less message (regardless of its text) reuses that
single record with zero further createSession calls. -/
theorem c10_null_space_key (env : Env) (store : Store) (t1 t2 : String)
    (hv : env.verify "tok" = true) (h1 : t1 ≠ "") (h2 : t2 ≠ "")
    (habs : storeGet store Json.null = none)
    (kvs : List (String × Json))
    (hc : env.createCall = .status 200 (some (.obj kvs))) :
    countCreate (webhook env store (authedInput (msgEventNoSpace t1))).2.2 = 1 ∧
    storeGet (webhook env store (authedInput (msgEventNoSpace t1))).2.1 Json.null =
      some (extractedId kvs) ∧
    countCreate (webhook env (webhook env store (authedInput (msgEventNoSpace t1))).2.1
      (authedInput (msgEventNoSpace t2))).2.2 = 0 ∧
    (webhook env (webhook env store (authedInput (msgEventNoSpace t1))).2.1
      (authedInput (msgEventNoSpace t2))).2.2 =
      [Call.send (extractedId kvs) (.str t2) (some 15)] := by
  have hkeq : pyKeyEq Json.null Json.null = true := rfl
  have hr1 : webhook env store (authedInput (msgEventNoSpace t1)) =
      sendFlow env (storePut store Json.null (extractedId kvs)) (extractedId kvs) (.str t1)
        [Call.create none] := by
    rw [webhook_authed env store _ hv, handleEvent_msgNoSpace env store t1 h1,
      messageFlow_miss env store Json.null (.str t1) kvs rfl habs hc]
  have hS1store : (webhook env store (authedInput (msgEventNoSpace t1))).2.1 =
      storePut store Json.null (extractedId kvs) := by
    rw [hr1, sendFlow_store]
  have hget1 : storeGet (storePut store Json.null (extractedId kvs)) Json.null =
      some (extractedId kvs) := storeGet_put_self store Json.null _ hkeq
  have hr2 : webhook env (storePut store Json.null (extractedId kvs))
      (authedInput (msgEventNoSpace t2)) =
      sendFlow env (storePut store Json.null (extractedId kvs)) (extractedId kvs) (.str t2) [] := by
    rw [webhook_authed _ _ _ hv, handleEvent_msgNoSpace _ _ _ h2,
      messageFlow_hit env (storePut store Json.null (extractedId kvs)) Json.null
        (extractedId kvs) (.str t2) rfl hget1]
  refine ⟨?_, ?_, ?_, ?_⟩
  · rw [hr1, sendFlow_trace]
    rfl
  · rw [hS1store, hget1]
  · rw [hS1store, hr2, sendFlow_trace]
    rfl
  · rw [hS1store, hr2, sendFlow_trace]
    rfl

/-- Concrete environment for the C10 witness. -/
def envC10 : Env :=
  ⟨fun _ => true, .status 200 (some (.obj [("chat_id", .str "s7")])), fun _ => .netError⟩

theorem c10_null_space_key_witness :
    countCreate (webhook envC10 [] (authedInput (msgEventNoSpace "a"))).2.2 = 1 ∧
    storeGet (webhook envC10 [] (authedInput (msgEventNoSpace "a"))).2.1 Json.null =
      some (.str "s7") ∧
    countCreate (webhook envC10 (webhook envC10 [] (authedInput (msgEventNoSpace "a"))).2.1
      (authedInput (msgEventNoSpace "b"))).2.2 = 0 ∧
    (webhook envC10 (webhook envC10 [] (authedInput (msgEventNoSpace "a"))).2.1
      (authedInput (msgEventNoSpace "b"))).2.2 =
      [Call.send (.str "s7") (.str "b") (some 15)] :=
  c10_null_space_key envC10 [] "a" "b" rfl (by decide) (by decide) rfl
    [("chat_id", .str "s7")] rfl


theorem sendFlow_calls (env : Env) (store : Store) (cid msg : Json) (tr : List Call) (c : Call)
    (hmem : c ∈ (sendFlow env store cid msg tr).2.2) :
    c ∈ tr ∨ c = Call.send cid msg (some 15) := by
  rw [sendFlow_trace] at hmem
  simpa using hmem

theorem messageFlow_calls (env : Env) (store : Store) (sp msg : Json) (c : Call)
    (hmem : c ∈ (messageFlow env store sp msg).2.2) :
    c = Call.create none ∨ ∃ sid, c = Call.send sid msg (some 15) := by
  unfold messageFlow at hmem
  repeat' split at hmem
  all_goals
    first
      | (simp at hmem
         try exact Or.inl hmem)
      | (rcases sendFlow_calls _ _ _ _ _ _ hmem with h | h
         · simp at h
           try exact Or.inl h
         · exact Or.inr ⟨_, h⟩)

theorem handleEvent_calls (env : Env) (store : Store) (event : Json) (c : Call)
    (hmem : c ∈ (handleEvent env store event).2.2) :
    c = Call.create none ∨ ∃ sid m, c = Call.send sid m (some 15) := by
  unfold handleEvent at hmem
  repeat' split at hmem
  all_goals
    first
      | simp at hmem
      | (rcases messageFlow_calls _ _ _ _ _ hmem with h | ⟨sid, h⟩
         · exact Or.inl h
         · exact Or.inr ⟨sid, _, h⟩)

theorem webhook_calls (env : Env) (store : Store) (inp : WebhookInput) (c : Call)
    (hmem : c ∈ (webhook env store inp).2.2) :
    c = Call.create none ∨ ∃ sid m, c = Call.send sid m (some 15) := by
  unfold webhook at hmem
  repeat' split at hmem
  all_goals
    first
      | simp at hmem
      | exact handleEvent_calls _ _ _ _ hmem

/-- Concrete environment for the C8 counterexample: verification
passes, the create call succeeds, the send call raises. -/
def envC8 : Env :=
  ⟨fun _ => true, .status 200 (some (.obj [("id", .str "s1")])), fun _ => .netError⟩

/-- Counterexample to C8 as stated: on a first-contact message the
handler issues the createSession POST with no timeout argument at all
(line 82 passes no `timeout=`), so createSession is not bounded by the
approximately-15-second timeout the claim asserts for both
operations; only the send POST carries `timeout=15`. -/
theorem c8_counterexample :
    (webhook envC8 [] (authedInput (msgEvent (.str "spaces/A") "hi"))).2.2 =
      [Call.create none, Call.send (.str "s1") (.str "hi") (some 15)] ∧
    Call.timeoutArg (Call.create none) = none ∧
    Call.path (Call.create none) = "/chats/new" :=
  ⟨rfl, rfl, rfl⟩

/-- C8 (amended): every backend request the handler ever issues is the
sendMessage POST to `/chats/{sessionId}` with a 15-second timeout or
the createSession POST to `/chats/new` with no timeout argument
(unbounded); and each call failure — a raised network error or timeout,
or a 4xx/5xx status (exactly what `raise_for_status` raises for; a
final 3xx status is processed as success) — is converted at the client
boundary into the fixed degraded reply (apology for createSession,
service-unavailable for sendMessage) rather than raised. -/
theorem c8_timeouts_and_degradation (env : Env) (store : Store) (inp : WebhookInput)
    (space sid msg : Json) (hk : hashable space = true) :
    (∀ c ∈ (webhook env store inp).2.2,
      (c.isCreate = true → c.timeoutArg = none ∧ c.path = "/chats/new") ∧
      (c.isCreate = false → c.timeoutArg = some 15)) ∧
    ((env.createCall = .netError ∨ ∃ code b, env.createCall = .status code b ∧ 400 ≤ code) →
      storeGet store space = none →
      messageFlow env store space msg = (.reply 200 apologyBody, store, [Call.create none])) ∧
    ((env.sendCall sid = .netError ∨ ∃ code b, env.sendCall sid = .status code b ∧ 400 ≤ code) →
      storeGet store space = some sid →
      messageFlow env store space msg =
        (.reply 200 unavailableBody, store, [Call.send sid msg (some 15)])) := by
  refine ⟨?_, ?_, ?_⟩
  · intro c hmem
    rcases webhook_calls env store inp c hmem with h | ⟨s, m, h⟩ <;> subst h
    · exact ⟨fun _ => ⟨rfl, rfl⟩, fun hf => Bool.noConfusion hf⟩
    · exact ⟨fun hf => Bool.noConfusion hf, fun _ => rfl⟩
  · intro hcf hs
    exact messageFlow_createFail env store space msg hk hs hcf
  · intro hsf hs
    rw [messageFlow_hit env store space sid msg hk hs, sendFlow_fail env store sid msg [] hsf]
    rfl

/-- Concrete environment for the C8 witness: both calls fail. -/
def envC8f : Env := ⟨fun _ => true, .netError, fun _ => .netError⟩

theorem c8_timeouts_and_degradation_witness :
    messageFlow envC8f [] (.str "spaces/A") (.str "hi") =
      (.reply 200 apologyBody, [], [Call.create none]) :=
  (c8_timeouts_and_degradation envC8f [] ⟨none, none⟩ (.str "spaces/A") (.str "s1")
      (.str "hi") rfl).2.1 (Or.inl rfl) rfl


/-
  Interleaving model for C9.  The spec (section 5) fixes the scheduling
  model: requests are handled potentially concurrently, and the two
  backend POSTs are blocking I/O during which other request threads
  run (the GIL is released around network I/O; individual dict
  operations are atomic).  A first-message request therefore decomposes
  into four atomic steps separated by possible interleaving points:
  the line-79 membership check, the lines 82-90 createSession call
  (assumed here to succeed, returning the id the backend hands out for
  the n-th create), the line-91 store write, and the lines 97-103 send
  call.  bot.py takes no lock around any of these.
-/

/-- One request thread of the race model: a program counter (0 before
the line-79 check, 1 before the create call, 2 before the line-91
store write, 3 before the send, 4 done) and the local `chat_id`. -/
structure ThreadState where
  pc : Nat
  chatId : Json

/-- Shared state of the race model: the `chat_sessions` dict, the two
request threads, and how many createSession calls the backend has
served (the backend returns `ids n` for the n-th call). -/
structure ConcState where
  store : Store
  th1 : ThreadState
  th2 : ThreadState
  creates : Nat

/-- One atomic step of one thread of the message flow for conversation
key `space`, with `ids` the backend's successive session ids. -/
def threadStep (ids : Nat → Json) (space : Json) (store : Store) (creates : Nat)
    (t : ThreadState) : Store × Nat × ThreadState :=
  match t.pc with
  | 0 =>
    match storeGet store space with
    | some cid => (store, creates, ⟨3, cid⟩)
    | none => (store, creates, ⟨1, t.chatId⟩)
  | 1 => (store, creates + 1, ⟨2, ids creates⟩)
  | 2 => (storePut store space t.chatId, creates, ⟨3, t.chatId⟩)
  | 3 => (store, creates, ⟨4, t.chatId⟩)
  | _ => (store, creates, t)

/-- Scheduler step: run one atomic step of thread 1 (`true`) or thread
2 (`false`). -/
def sysStep (ids : Nat → Json) (space : Json) (first : Bool) (s : ConcState) : ConcState :=
  if first then
    match threadStep ids space s.store s.creates s.th1 with
    | (st, cr, t) => ⟨st, t, s.th2, cr⟩
  else
    match threadStep ids space s.store s.creates s.th2 with
    | (st, cr, t) => ⟨st, s.th1, t, cr⟩

/-- Run a schedule (list of thread choices) from a state. -/
def runSched (ids : Nat → Json) (space : Json) : List Bool → ConcState → ConcState
  | [], s => s
  | b :: rest, s => runSched ids space rest (sysStep ids space b s)

/-- Initial state: empty session store, both threads at the membership
check, no createSession calls served yet. -/
def initConc : ConcState := ⟨[], ⟨0, .null⟩, ⟨0, .null⟩, 0⟩

/-- Backend session ids for the race run. -/
def raceIds : Nat → Json := fun n => .str ("sess" ++ toString n)

/-- The racing schedule: both threads pass the line-79 membership check
before either stores, then each creates and stores in turn. -/
def raceSched : List Bool := [true, false, true, true, true, false, false, false]

/-- C9 (code divergence): with no lock around check-then-create-then-
store, the schedule in which both first-message requests pass the
membership check before either stores leads to two createSession
calls; the second thread's store write overwrites the first's, so the
final store maps the conversation to the second session while the
first thread sent its message on the now-orphaned first session —
contradicting the claim that exactly one record results and the second
request reuses the first's session. -/
theorem c9_code_divergence :
    (runSched raceIds (.str "spaces/A") raceSched initConc).creates = 2 ∧
    (runSched raceIds (.str "spaces/A") raceSched initConc).store =
      [(.str "spaces/A", .str "sess1")] ∧
    (runSched raceIds (.str "spaces/A") raceSched initConc).th1.chatId = .str "sess0" ∧
    (runSched raceIds (.str "spaces/A") raceSched initConc).th2.chatId = .str "sess1" ∧
    (runSched raceIds (.str "spaces/A") raceSched initConc).th1.pc = 4 ∧
    (runSched raceIds (.str "spaces/A") raceSched initConc).th2.pc = 4 :=
  ⟨rfl, rfl, rfl, rfl, rfl, rfl⟩

end Bot
